import Mathlib

/-!
# wabarc/snapshot: capture options, endpoint discovery and the capture sequence

A shallow embedding of `snapshot.go`.  Go values are mapped as follows.

* `int64` is `Int` (the option setters only store their argument, no arithmetic).
* `float64` is `Float64`, the IEEE-754 bit pattern; it is only stored and passed on.
* `string` is `String`, `[]byte` is `Bytes`.
* A Go result pair `(io.Reader, error)` keeps both components, each of them optional.
* The remote browser, the HTTP transport and the caller's context are explicit inputs.
-/

namespace WabarcSnapshot

/-! ## Capture options (`snapshot.go`, lines 124-164) -/

/-- Go `float64`, as its IEEE-754 binary64 bit pattern.  The zero value `0.0` has bits `0`. -/
structure Float64 where
  bits : Nat
deriving DecidableEq, Repr

/-- The record `SnapshotOptions`. -/
structure SnapshotOptions where
  Width : Int
  Height : Int
  Mobile : Bool
  Format : String
  ScaleFactor : Float64
deriving DecidableEq, Repr

/-- The value of `var opts SnapshotOptions`: every field holds its zero value. -/
def SnapshotOptions.zero : SnapshotOptions :=
  { Width := 0, Height := 0, Mobile := false, Format := "", ScaleFactor := ⟨0⟩ }

/-- The type `SnapshotOption = func(*SnapshotOptions)`, as a state transformer. -/
abbrev SnapshotOption := SnapshotOptions → SnapshotOptions

def WidthSnapshotOption (width : Int) : SnapshotOption :=
  fun opts => { opts with Width := width }

def HeightSnapshotOption (height : Int) : SnapshotOption :=
  fun opts => { opts with Height := height }

def ScaleFactorSnapshotOption (factor : Float64) : SnapshotOption :=
  fun opts => { opts with ScaleFactor := factor }

def MobileSnapshotOption (b : Bool) : SnapshotOption :=
  fun opts => { opts with Mobile := b }

def FormatSnapshotOption (format : String) : SnapshotOption :=
  fun opts => { opts with Format := format }

/-- The loop `for _, o := range options { o(&opts) }` of `Snapshot` (lines 59-62). -/
def applyOptions (options : List SnapshotOption) : SnapshotOptions :=
  options.foldl (fun opts o => o opts) SnapshotOptions.zero

/-- A call of one of the five exported setters, with its argument. -/
inductive SetterCall where
  | width (width : Int)
  | height (height : Int)
  | scaleFactor (factor : Float64)
  | mobile (b : Bool)
  | format (format : String)
deriving DecidableEq, Repr

/-- The option value a setter call evaluates to. -/
def SetterCall.toOption : SetterCall → SnapshotOption
  | .width w => WidthSnapshotOption w
  | .height h => HeightSnapshotOption h
  | .scaleFactor f => ScaleFactorSnapshotOption f
  | .mobile b => MobileSnapshotOption b
  | .format s => FormatSnapshotOption s

def SetterCall.widthArg : SetterCall → Option Int
  | .width w => some w
  | _ => none

def SetterCall.heightArg : SetterCall → Option Int
  | .height h => some h
  | _ => none

def SetterCall.scaleFactorArg : SetterCall → Option Float64
  | .scaleFactor f => some f
  | _ => none

def SetterCall.mobileArg : SetterCall → Option Bool
  | .mobile b => some b
  | _ => none

def SetterCall.formatArg : SetterCall → Option String
  | .format s => some s
  | _ => none

/-- The argument of the last call in `calls` that targets the field selected by `arg`,
or `zero` when no call targets it. -/
def lastArg {α : Type} (arg : SetterCall → Option α) (zero : α) (calls : List SetterCall) : α :=
  ((calls.filterMap arg).getLast?).getD zero

/-! ## Endpoint discovery (`NewChromeRemoteSnapshoter`, lines 26-50) -/

/-- Go `error` values that the environment can hand to this package.
`deadlineExceeded` is `context.DeadlineExceeded`. -/
inductive Err where
  | deadlineExceeded
  | canceled
  | other (msg : String)
deriving DecidableEq, Repr

/-- A decoded JSON value, as `encoding/json` stores it in an `interface{}`. -/
inductive Json where
  | null
  | bool (b : Bool)
  | number (lexeme : String)
  | str (s : String)
  | arr (items : List Json)
  | obj (members : List (String × Json))

/-- What the environment answers to the discovery request built for a given URL. -/
structure Discovery where
  /-- The error of `http.NewRequest(http.MethodGet, url, nil)`, if any. -/
  newRequest : String → Option Err
  /-- The error of `http.DefaultClient.Do(req)`, or the response body: a JSON syntax
  error, or the JSON value the body holds. -/
  roundTrip : String → Except Err (Except Err Json)

/-- Go's `strings.Replace(s, old, new, 1)` on the characters of the strings: the first
occurrence of `old` in `s`, scanning from the left, is replaced by `new`; `s` is
returned unchanged when `old` does not occur. -/
def replaceFirst (old new : List Char) : List Char → List Char
  | [] => if old = [] then new else []
  | c :: cs =>
    if old.isPrefixOf (c :: cs) then new ++ (c :: cs).drop old.length
    else c :: replaceFirst old new cs

/-- The call `strings.Replace(s, old, new, 1)`. -/
def Replace1 (s old new : String) : String :=
  ⟨replaceFirst old.data new.data s.data⟩

/-- The statement `json.NewDecoder(resp.Body).Decode(&result)` for
`result map[string]interface{}`: an object fills the map, `null` leaves the map nil,
every other value is an unmarshal type error. -/
def decodeMap : Json → Except Err (List (String × Json))
  | .obj members => .ok members
  | .null => .ok []
  | _ => .error (.other "json: cannot unmarshal value into Go map")

/-- The map index `result[key]`: the decoder keeps the last member of a repeated key. -/
def mapIndex (result : List (String × Json)) (key : String) : Option Json :=
  (result.reverse.find? (fun kv => kv.1 == key)).map (fun kv => kv.2)

/-- How a Go call ends: with a value, with a returned `error`, or with a run-time panic. -/
inductive Result (α : Type) where
  | ok (value : α)
  | error (err : Err)
  | panic (msg : String)
deriving DecidableEq, Repr

/-- The struct `chromeRemoteSnapshoter`. -/
structure chromeRemoteSnapshoter where
  url : String
deriving DecidableEq, Repr

/-- The unchecked type assertion `v.(string)` on an `interface{}` value. -/
def assertString : Option Json → Result String
  | some (.str s) => .ok s
  | _ => .panic "interface conversion: interface is not string"

/-- The function `NewChromeRemoteSnapshoter(addr)`. -/
def NewChromeRemoteSnapshoter (env : Discovery) (addr : String) : Result chromeRemoteSnapshoter :=
  let target := "http://" ++ addr ++ "/json/version"
  match env.newRequest target with
  | some err => .error err
  | none =>
    match env.roundTrip target with
    | .error err => .error err
    | .ok body =>
      match body.bind decodeMap with
      | .error err => .error err
      | .ok result =>
        match assertString (mapIndex result "webSocketDebuggerUrl") with
        | .ok ws => .ok { url := Replace1 ws "localhost" addr }
        | .error err => .error err
        | .panic msg => .panic msg

/-- Whether a character can stand in the host segment of a URL: every character but the
delimiters `/`, `?` and `#`. -/
def isHostChar (c : Char) : Bool :=
  !(c == '/' || c == '?' || c == '#')

/-- Whether `rest` can follow a host segment: it is empty or starts with a delimiter. -/
def followsHost : List Char → Bool
  | [] => true
  | c :: _ => !isHostChar c

/-- The parts of a URL `scheme://host rest`: the scheme, the host segment (up to the first
`/`, `?` or `#` after `://`) and everything that follows the host. -/
def urlPartsFrom (scheme : List Char) : List Char → Option (List Char × List Char × List Char)
  | [] => none
  | c :: cs =>
    if "://".data.isPrefixOf (c :: cs) then
      let after := (c :: cs).drop 3
      some (scheme.reverse, after.takeWhile isHostChar, after.dropWhile isHostChar)
    else urlPartsFrom (c :: scheme) cs

/-- The parts of a URL, scanning from its first character. -/
def urlParts (u : List Char) : Option (List Char × List Char × List Char) :=
  urlPartsFrom [] u

/-- The endpoint differs from the discovered URL in its host segment only, which is `addr`. -/
def HostRewritten (addr ws endpoint : String) : Prop :=
  ∃ scheme host rest, urlParts ws.data = some (scheme, host, rest) ∧
    urlParts endpoint.data = some (scheme, addr.data, rest)

/-! ## The capture sequence (`Snapshot` and its actions, lines 52-122) -/

/-- Go `[]byte`. -/
abbrev Bytes := List UInt8

/-- The conversion `[]byte(data)` of a Go string. -/
def bytesOf (data : String) : Bytes := data.toUTF8.data.toList

/-- The caller's `context.Context`, seen from the action sequence.  `deadline = some k`
says that step `k` (counted from 0) is the first action that finds the deadline elapsed;
`none` says that no action does.  A deadline that elapses earlier, while `chromedp.Run`
still sets up the session and the page target, shows as the error `Remote.connect`. -/
structure Context where
  deadline : Option Nat
deriving DecidableEq, Repr

/-- Whether `ctx.Done()` is closed when step `step` waits for its reply. -/
def Context.expired (ctx : Context) (step : Nat) : Bool :=
  match ctx.deadline with
  | some k => decide (k ≤ step)
  | none => false

/-- The replies of the remote browser to the commands of one call. -/
structure Remote where
  /-- The error of establishing the browser session and page target inside `chromedp.Run`;
  `chromedp` wraps the cause of a failed set-up in a new error value. -/
  connect : Option Err
  setDeviceMetricsOverride : Int → Int → Float64 → Bool → Except Err Unit
  navigate : String → Except Err Unit
  captureSnapshot : Except Err String
  printToPDF : Except Err Bytes
  close : Except Err Unit

/-- The pointer `res *[]byte` handed to a capture action. -/
inductive BufPtr where
  | nil
  | buf
deriving DecidableEq, Repr

/-- The value `*page.PrintToPDFParams` built by `page.PrintToPDF()`; it has no field set. -/
structure PrintToPDFParams where
deriving DecidableEq, Repr

/-- The actions that `Snapshot` hands to `chromedp.Run`. -/
inductive Action where
  | setDeviceMetricsOverride (width height : Int) (scale : Float64) (mobile : Bool)
  | navigate (url : String)
  | snapshotAction (res : BufPtr) (format : String)
  | printToPDFAction (res : BufPtr) (params : Option PrintToPDFParams)
  | closePageAction
deriving DecidableEq, Repr

/-- The state threaded through `chromedp.Run`: the local `buf` of `Snapshot` and the
actions whose `Do` has been called so far, oldest first. -/
structure RunState where
  buf : Bytes
  trace : List Action
deriving DecidableEq, Repr

/-- A remote command sent as step `step` under `ctx`: once the deadline has elapsed the
call returns `ctx.Err()`, otherwise it returns the reply of the browser. -/
def execute {α : Type} (ctx : Context) (step : Nat) (reply : Except Err α) : Except Err α :=
  if ctx.expired step then .error .deadlineExceeded else reply

/-- The error component of a reply. -/
def errOf {α : Type} : Except Err α → Option Err
  | .ok _ => none
  | .error e => some e

/-- The method `Do` of each action: the returned `error` and the state it leaves. -/
def Action.Do (ctx : Context) (remote : Remote) (st : RunState) (a : Action) :
    Option Err × RunState :=
  let step := st.trace.length
  let st := { st with trace := st.trace ++ [a] }
  match a with
  | .setDeviceMetricsOverride w h scale mobile =>
    (errOf (execute ctx step (remote.setDeviceMetricsOverride w h scale mobile)), st)
  | .navigate url =>
    (errOf (execute ctx step (remote.navigate url)), st)
  | .snapshotAction res _ =>
    match res with
    | .nil => (none, st)
    | .buf =>
      -- `if data, err := params.Do(ctx); err == nil { *res = []byte(data) }; return`
      -- the inner `err` shadows the named result, which stays nil
      match execute ctx step remote.captureSnapshot with
      | .ok data => (none, { st with buf := bytesOf data })
      | .error _ => (none, st)
  | .printToPDFAction res _ =>
    match res with
    | .nil => (none, st)
    | .buf =>
      -- `*res, _, err = params.Do(ctx)`
      match execute ctx step remote.printToPDF with
      | .ok data => (none, { st with buf := data })
      | .error e => (some e, { st with buf := [] })
  | .closePageAction =>
    (errOf (execute ctx step remote.close), st)

/-- The loop of `chromedp.Tasks.Do`: the actions in order, stopping at the first error. -/
def TasksDo (ctx : Context) (remote : Remote) : List Action → RunState → Option Err × RunState
  | [], st => (none, st)
  | a :: rest, st =>
    match a.Do ctx remote st with
    | (some e, st) => (some e, st)
    | (none, st) => TasksDo ctx remote rest st

/-- The function `chromedp.Run(ctx, actions...)`: it establishes the browser session and
the page target, then runs the actions. -/
def Run (ctx : Context) (remote : Remote) (actions : List Action) (st : RunState) :
    Option Err × RunState :=
  match remote.connect with
  | some e => (some e, st)
  | none => TasksDo ctx remote actions st

/-- The resource events of one `Snapshot` call. -/
inductive Event where
  | newRemoteAllocator (url : String)
  | newContext
  | action (a : Action)
  | cancelContext
  | cancelAllocator
deriving DecidableEq, Repr

/-- What one `Snapshot` call returns and does. -/
structure Outcome where
  /-- The returned `io.Reader`, as the bytes it yields; `none` is the nil reader. -/
  reader : Option Bytes
  /-- The returned `error`; `none` is nil. -/
  err : Option Err
  /-- The actions whose `Do` was called, oldest first. -/
  trace : List Action
  /-- The events of the call, oldest first. -/
  events : List Event
deriving DecidableEq, Repr

/-- The capture action chosen at lines 64-68. -/
def captureAction (opts : SnapshotOptions) : Action :=
  if opts.Format = "pdf" then .printToPDFAction .buf (some {})
  else .snapshotAction .buf opts.Format

/-- The argument list of the `chromedp.Run` call at lines 70-75. -/
def runActions (url : String) (opts : SnapshotOptions) : List Action :=
  [ .setDeviceMetricsOverride opts.Width opts.Height opts.ScaleFactor opts.Mobile,
    .navigate url,
    captureAction opts,
    .closePageAction ]

/-- The method `Snapshot(ctx, url, options...)`. -/
def Snapshot (s : chromeRemoteSnapshoter) (ctx : Context) (remote : Remote) (url : String)
    (options : List SnapshotOption) : Outcome :=
  -- allocatorCtx, cancel := chromedp.NewRemoteAllocator(ctx, s.url); defer cancel()
  let events := [Event.newRemoteAllocator s.url]
  let deferred := [Event.cancelAllocator]
  -- ctxt, cancel := chromedp.NewContext(allocatorCtx); defer cancel()
  let events := events ++ [Event.newContext]
  let deferred := Event.cancelContext :: deferred
  let opts := applyOptions options
  let run := Run ctx remote (runActions url opts) { buf := [], trace := [] }
  let events := events ++ run.2.trace.map Event.action
  -- deferred calls run last in, first out, on every return
  match run.1 with
  | some e => { reader := none, err := some e, trace := run.2.trace, events := events ++ deferred }
  | none => { reader := some run.2.buf, err := none, trace := run.2.trace,
              events := events ++ deferred }

/-- Whether an action is the print-to-PDF action. -/
def Action.isPrintToPDF : Action → Bool
  | .printToPDFAction _ _ => true
  | _ => false

/-- Whether an action is the structural-snapshot action. -/
def Action.isSnapshot : Action → Bool
  | .snapshotAction _ _ => true
  | _ => false

/-- A remote browser that answers every command with success, `data` being the
snapshot and `pdf` the printed document. -/
def Remote.allOk (data : String) (pdf : Bytes) : Remote :=
  { connect := none,
    setDeviceMetricsOverride := fun _ _ _ _ => .ok (),
    navigate := fun _ => .ok (),
    captureSnapshot := .ok data,
    printToPDF := .ok pdf,
    close := .ok () }

/-- A remote browser whose snapshot command fails with `e` and that answers every other
command with success. -/
def Remote.captureFails (e : Err) : Remote :=
  { Remote.allOk "" [] with captureSnapshot := .error e }

/-- The error that `chromedp.Run` returns when the deadline of the context elapses while it
sets up the session and the page target: `fmt.Errorf` wraps the context error in a new
error value, which Go's `==` does not equate with `context.DeadlineExceeded`. -/
def setupDeadlineErr : Err :=
  .other "unable to execute *page.EnableParams: context deadline exceeded"

/-- A remote browser that accepts the connection and does not answer the set-up commands
before the deadline of the context elapses. -/
def Remote.setupTimesOut : Remote :=
  { Remote.allOk "" [] with connect := some setupDeadlineErr }

/-- A discovery environment in which the request is sent and the response body holds the
JSON value `body`. -/
def Discovery.answering (body : Json) : Discovery :=
  { newRequest := fun _ => none, roundTrip := fun _ => .ok (.ok body) }

/-! ## Capture options: last write wins -/

theorem lastArg_cons {α : Type} (arg : SetterCall → Option α) (zero : α) (c : SetterCall)
    (cs : List SetterCall) :
    lastArg arg zero (c :: cs) = lastArg arg ((arg c).getD zero) cs := by
  unfold lastArg
  cases h : arg c with
  | none => simp [List.filterMap_cons, h]
  | some a =>
    simp only [List.filterMap_cons, h, List.getLast?_cons, Option.getD_some]

/-- Folding setter calls over any starting record: every field ends as the argument of the
last call that targets it, or keeps its starting value. -/
theorem foldl_setters (calls : List SetterCall) (init : SnapshotOptions) :
    (calls.map SetterCall.toOption).foldl (fun opts o => o opts) init =
      { Width := lastArg SetterCall.widthArg init.Width calls,
        Height := lastArg SetterCall.heightArg init.Height calls,
        Mobile := lastArg SetterCall.mobileArg init.Mobile calls,
        Format := lastArg SetterCall.formatArg init.Format calls,
        ScaleFactor := lastArg SetterCall.scaleFactorArg init.ScaleFactor calls } := by
  induction calls generalizing init with
  | nil => simp [lastArg]
  | cons c cs ih =>
    simp only [List.map_cons, List.foldl_cons, ih, lastArg_cons]
    cases c <;> rfl

/-- C1: applying any list of setter calls in order to the zero-valued record leaves in
each field the argument of the last call that targets the field, and the zero value
(0, 0, 0.0, false, "") when no call targets it; the list
format("pdf"), width(800), format("mhtml") yields Format "mhtml" and Width 800. -/
theorem applyOptions_last_write_wins (calls : List SetterCall) :
    (applyOptions (calls.map SetterCall.toOption)).Width
        = lastArg SetterCall.widthArg 0 calls ∧
    (applyOptions (calls.map SetterCall.toOption)).Height
        = lastArg SetterCall.heightArg 0 calls ∧
    (applyOptions (calls.map SetterCall.toOption)).ScaleFactor
        = lastArg SetterCall.scaleFactorArg ⟨0⟩ calls ∧
    (applyOptions (calls.map SetterCall.toOption)).Mobile
        = lastArg SetterCall.mobileArg false calls ∧
    (applyOptions (calls.map SetterCall.toOption)).Format
        = lastArg SetterCall.formatArg "" calls ∧
    applyOptions [FormatSnapshotOption "pdf", WidthSnapshotOption 800,
        FormatSnapshotOption "mhtml"]
      = { Width := 800, Height := 0, Mobile := false, Format := "mhtml", ScaleFactor := ⟨0⟩ } := by
  unfold applyOptions
  rw [foldl_setters]
  exact ⟨rfl, rfl, rfl, rfl, rfl, rfl⟩

/-! ## The run sequence -/

/-- C2: the capture action in the run sequence is the print-to-PDF action exactly when the
final Format is "pdf"; for every other Format, the empty string included, it is the
structural-snapshot action; the sequence holds one of the two and never both. -/
theorem capture_action_by_format (url : String) (options : List SnapshotOption) :
    (captureAction (applyOptions options) = .printToPDFAction .buf (some {})
        ↔ (applyOptions options).Format = "pdf") ∧
    (captureAction (applyOptions options)
          = .snapshotAction .buf (applyOptions options).Format
        ↔ (applyOptions options).Format ≠ "pdf") ∧
    (runActions url (applyOptions options)).filter
        (fun a => a.isPrintToPDF || a.isSnapshot) = [captureAction (applyOptions options)] ∧
    (runActions url (applyOptions options)).countP Action.isPrintToPDF
        = (if (applyOptions options).Format = "pdf" then 1 else 0) ∧
    (runActions url (applyOptions options)).countP Action.isSnapshot
        = (if (applyOptions options).Format = "pdf" then 0 else 1) ∧
    captureAction SnapshotOptions.zero = .snapshotAction .buf "" := by
  refine ⟨?_, ?_, ?_, ?_, ?_, ?_⟩
  · unfold captureAction; split <;> simp_all
  · unfold captureAction; split <;> simp_all
  · unfold runActions captureAction
    split <;> simp [Action.isPrintToPDF, Action.isSnapshot]
  · unfold runActions captureAction
    split <;> simp [Action.isPrintToPDF, List.countP_cons]
  · unfold runActions captureAction
    split <;> simp [Action.isSnapshot, List.countP_cons]
  · decide

theorem Do_trace (ctx : Context) (remote : Remote) (st : RunState) (a : Action) :
    (a.Do ctx remote st).2.trace = st.trace ++ [a] := by
  cases a with
  | setDeviceMetricsOverride w h scale mobile => rfl
  | navigate url => rfl
  | closePageAction => rfl
  | snapshotAction res format =>
    cases res with
    | nil => rfl
    | buf => simp only [Action.Do]; split <;> rfl
  | printToPDFAction res params =>
    cases res with
    | nil => rfl
    | buf => simp only [Action.Do]; split <;> rfl

/-- The task loop executes an initial part of its actions, all of them when it returns
no error. -/
theorem TasksDo_trace (ctx : Context) (remote : Remote) (actions : List Action)
    (st : RunState) :
    ∃ done, done <+: actions ∧
      (TasksDo ctx remote actions st).2.trace = st.trace ++ done ∧
      ((TasksDo ctx remote actions st).1 = none → done = actions) := by
  induction actions generalizing st with
  | nil => exact ⟨[], List.nil_prefix, by simp [TasksDo], fun _ => rfl⟩
  | cons a rest ih =>
    have hd := Do_trace ctx remote st a
    unfold TasksDo
    cases h : a.Do ctx remote st with
    | mk e st1 =>
      rw [h] at hd
      cases e with
      | some e =>
        refine ⟨[a], ?_, hd, ?_⟩
        · exact List.prefix_iff_eq_append.mpr (by simp)
        · intro hnone; simp at hnone
      | none =>
        obtain ⟨done, hpre, htr, hall⟩ := ih st1
        refine ⟨a :: done, ?_, ?_, ?_⟩
        · exact (List.cons_prefix_cons).mpr ⟨rfl, hpre⟩
        · simp only [htr]; rw [hd]; simp
        · intro hnone; rw [hall hnone]

theorem Run_trace (ctx : Context) (remote : Remote) (actions : List Action) :
    (Run ctx remote actions { buf := [], trace := [] }).2.trace <+: actions ∧
    ((Run ctx remote actions { buf := [], trace := [] }).1 = none →
      (Run ctx remote actions { buf := [], trace := [] }).2.trace = actions) := by
  unfold Run
  cases remote.connect with
  | some e => exact ⟨List.nil_prefix, fun h => by simp at h⟩
  | none =>
    obtain ⟨done, hpre, htr, hall⟩ :=
      TasksDo_trace ctx remote actions { buf := [], trace := [] }
    simp only [List.nil_append] at htr
    simp only [htr]
    exact ⟨hpre, hall⟩

theorem Snapshot_err (s : chromeRemoteSnapshoter) (ctx : Context) (remote : Remote)
    (url : String) (options : List SnapshotOption) :
    (Snapshot s ctx remote url options).err
      = (Run ctx remote (runActions url (applyOptions options)) { buf := [], trace := [] }).1 := by
  simp only [Snapshot]
  split <;> simp_all

theorem Snapshot_trace (s : chromeRemoteSnapshoter) (ctx : Context) (remote : Remote)
    (url : String) (options : List SnapshotOption) :
    (Snapshot s ctx remote url options).trace
      = (Run ctx remote (runActions url (applyOptions options))
          { buf := [], trace := [] }).2.trace := by
  simp only [Snapshot]
  split <;> rfl

theorem Snapshot_events (s : chromeRemoteSnapshoter) (ctx : Context) (remote : Remote)
    (url : String) (options : List SnapshotOption) :
    (Snapshot s ctx remote url options).events
      = [Event.newRemoteAllocator s.url, Event.newContext]
          ++ (Snapshot s ctx remote url options).trace.map Event.action
          ++ [Event.cancelContext, Event.cancelAllocator] := by
  simp only [Snapshot]
  split <;> rfl

/-- C9: the sequence handed to the run is the device-metrics override with the final
Width, Height, ScaleFactor and Mobile, the navigation to the unchanged url, one capture
action and the page close, in this order; the actions executed are always an initial part
of it, all four when the call returns no error. -/
theorem snapshot_sequence (s : chromeRemoteSnapshoter) (ctx : Context) (remote : Remote)
    (url : String) (options : List SnapshotOption) :
    runActions url (applyOptions options) =
      [ .setDeviceMetricsOverride (applyOptions options).Width (applyOptions options).Height
          (applyOptions options).ScaleFactor (applyOptions options).Mobile,
        .navigate url,
        captureAction (applyOptions options),
        .closePageAction ] ∧
    (Snapshot s ctx remote url options).trace <+: runActions url (applyOptions options) ∧
    ((Snapshot s ctx remote url options).err = none →
      (Snapshot s ctx remote url options).trace = runActions url (applyOptions options)) := by
  rw [Snapshot_err, Snapshot_trace]
  exact ⟨rfl, Run_trace ctx remote _⟩

theorem snapshot_sequence_witness :
    (Snapshot ⟨"ws://10.0.0.5:9222/devtools/browser/b"⟩ ⟨none⟩ (Remote.allOk "x" [])
        "https://www.google.com/" [ScaleFactorSnapshotOption ⟨4607182418800017408⟩]).err = none ∧
    (Snapshot ⟨"ws://10.0.0.5:9222/devtools/browser/b"⟩ ⟨none⟩ (Remote.allOk "x" [])
        "https://www.google.com/" [ScaleFactorSnapshotOption ⟨4607182418800017408⟩]).trace
      = [ .setDeviceMetricsOverride 0 0 ⟨4607182418800017408⟩ false,
          .navigate "https://www.google.com/",
          .snapshotAction .buf "",
          .closePageAction ] :=
  ⟨by decide,
   (snapshot_sequence ⟨"ws://10.0.0.5:9222/devtools/browser/b"⟩ ⟨none⟩ (Remote.allOk "x" [])
      "https://www.google.com/" [ScaleFactorSnapshotOption ⟨4607182418800017408⟩]).2.2
      (by decide)⟩

/-! ## Results and errors of a call -/

/-- The run of the four actions, spelled out on the replies the steps receive. -/
theorem Run_runActions (ctx : Context) (remote : Remote) (url : String)
    (opts : SnapshotOptions) :
    Run ctx remote (runActions url opts) { buf := [], trace := [] } =
      match remote.connect with
      | some e => (some e, { buf := [], trace := [] })
      | none =>
        match execute ctx 0 (remote.setDeviceMetricsOverride opts.Width opts.Height
            opts.ScaleFactor opts.Mobile) with
        | .error e => (some e, { buf := [], trace := (runActions url opts).take 1 })
        | .ok _ =>
          match execute ctx 1 (remote.navigate url) with
          | .error e => (some e, { buf := [], trace := (runActions url opts).take 2 })
          | .ok _ =>
            if opts.Format = "pdf" then
              match execute ctx 2 remote.printToPDF with
              | .error e => (some e, { buf := [], trace := (runActions url opts).take 3 })
              | .ok pdf =>
                (errOf (execute ctx 3 remote.close),
                  { buf := pdf, trace := runActions url opts })
            else
              match execute ctx 2 remote.captureSnapshot with
              | .error _ =>
                (errOf (execute ctx 3 remote.close),
                  { buf := [], trace := runActions url opts })
              | .ok data =>
                (errOf (execute ctx 3 remote.close),
                  { buf := bytesOf data, trace := runActions url opts }) := by
  unfold Run
  cases remote.connect with
  | some e => rfl
  | none =>
    simp only [runActions, captureAction, TasksDo, Action.Do, List.length_nil, List.nil_append,
      List.take]
    cases h0 : execute ctx 0 (remote.setDeviceMetricsOverride opts.Width opts.Height
        opts.ScaleFactor opts.Mobile) with
    | error e => simp [errOf]
    | ok u =>
      simp only [errOf, List.length_cons, List.length_nil, List.cons_append, List.nil_append]
      cases h1 : execute ctx 1 (remote.navigate url) with
      | error e => simp [h1]
      | ok u =>
        by_cases hf : opts.Format = "pdf"
        · simp only [hf, if_true, List.length_cons, List.length_nil]
          cases h2 : execute ctx 2 remote.printToPDF with
          | error e => simp [h2]
          | ok pdf =>
            simp only [List.length_append, List.length_cons, List.length_nil]
            cases h3 : execute ctx 3 remote.close <;> simp [h3]
        · simp only [hf, if_false, List.length_cons, List.length_nil]
          cases h2 : execute ctx 2 remote.captureSnapshot with
          | error e =>
            simp only [List.length_append, List.length_cons, List.length_nil]
            cases h3 : execute ctx 3 remote.close <;> simp [h3]
          | ok data =>
            simp only [List.length_append, List.length_cons, List.length_nil]
            cases h3 : execute ctx 3 remote.close <;> simp [h3]

theorem execute_ok {α : Type} {ctx : Context} {step : Nat} {reply : Except Err α} {a : α}
    (h : execute ctx step reply = .ok a) : ctx.expired step = false ∧ reply = .ok a := by
  unfold execute at h
  split at h
  · cases h
  · exact ⟨by simp_all, h⟩

theorem execute_expired {α : Type} {ctx : Context} {step : Nat} (reply : Except Err α)
    (h : ctx.expired step = true) : execute ctx step reply = .error .deadlineExceeded := by
  simp [execute, h]

theorem execute_live {α : Type} {ctx : Context} {step : Nat} (reply : Except Err α)
    (h : ctx.expired step = false) : execute ctx step reply = reply := by
  simp [execute, h]

theorem expired_mono {ctx : Context} {n m : Nat} (hnm : n ≤ m) (h : ctx.expired n = true) :
    ctx.expired m = true := by
  unfold Context.expired at h ⊢
  cases hd : ctx.deadline with
  | none => simp [hd] at h
  | some k =>
    simp only [hd, decide_eq_true_eq] at h ⊢
    omega

theorem live_mono {ctx : Context} {n m : Nat} (hnm : n ≤ m) (h : ctx.expired m = false) :
    ctx.expired n = false := by
  cases hn : ctx.expired n with
  | false => rfl
  | true => rw [expired_mono hnm hn] at h; cases h

theorem errOf_eq_none {α : Type} {r : Except Err α} (h : errOf r = none) : ∃ a, r = .ok a := by
  cases r with
  | ok a => exact ⟨a, rfl⟩
  | error e => simp [errOf] at h

theorem bytesOf_length (data : String) : (bytesOf data).length = data.utf8ByteSize := by
  show data.toUTF8.size = data.utf8ByteSize
  exact String.size_toUTF8 data

theorem Snapshot_reader (s : chromeRemoteSnapshoter) (ctx : Context) (remote : Remote)
    (url : String) (options : List SnapshotOption) :
    (Snapshot s ctx remote url options).reader =
      match (Run ctx remote (runActions url (applyOptions options))
          { buf := [], trace := [] }).1 with
      | some _ => none
      | none => some (Run ctx remote (runActions url (applyOptions options))
          { buf := [], trace := [] }).2.buf := by
  simp only [Snapshot]
  split <;> simp_all

/-- C7: when the call returns no error the reader yields, unmodified and in order, the
bytes the chosen capture action produced: the PDF bytes of the remote print call in "pdf"
mode, otherwise the bytes of the remote snapshot string, which are the UTF-8 bytes of its
characters one after the other, as many as the string is long (no bytes when the remote
snapshot call produced none); when the call returns an error the reader is nil. -/
theorem reader_passthrough (s : chromeRemoteSnapshoter) (ctx : Context) (remote : Remote)
    (url : String) (options : List SnapshotOption) :
    ((Snapshot s ctx remote url options).err ≠ none →
      (Snapshot s ctx remote url options).reader = none) ∧
    ((Snapshot s ctx remote url options).err = none →
      ((applyOptions options).Format = "pdf" →
        ∃ pdf, remote.printToPDF = .ok pdf ∧
          (Snapshot s ctx remote url options).reader = some pdf) ∧
      ((applyOptions options).Format ≠ "pdf" →
        (∃ data, remote.captureSnapshot = .ok data ∧
          (Snapshot s ctx remote url options).reader = some (bytesOf data) ∧
          bytesOf data = data.data.flatMap String.utf8EncodeChar ∧
          (bytesOf data).length = data.utf8ByteSize) ∨
        (∃ e, remote.captureSnapshot = .error e ∧
          (Snapshot s ctx remote url options).reader = some []))) ∧
    bytesOf "<html>" = [60, 104, 116, 109, 108, 62] := by
  refine ⟨?_, ?_, by decide⟩
  · simp only [Snapshot]
    split <;> simp_all
  · intro h
    rw [Snapshot_reader]
    rw [Snapshot_err] at h
    rw [h]
    rw [Run_runActions] at h ⊢
    cases hc : remote.connect with
    | some e => simp [hc] at h
    | none =>
      simp only [hc] at h ⊢
      cases h0 : execute ctx 0 (remote.setDeviceMetricsOverride (applyOptions options).Width
          (applyOptions options).Height (applyOptions options).ScaleFactor
          (applyOptions options).Mobile) with
      | error e => simp [h0] at h
      | ok u0 =>
        simp only [h0] at h ⊢
        cases h1 : execute ctx 1 (remote.navigate url) with
        | error e => simp [h1] at h
        | ok u1 =>
          simp only [h1] at h ⊢
          by_cases hf : (applyOptions options).Format = "pdf"
          · rw [if_pos hf] at h ⊢
            cases h2 : execute ctx 2 remote.printToPDF with
            | error e => simp [h2] at h
            | ok pdf =>
              exact ⟨fun _ => ⟨pdf, (execute_ok h2).2, rfl⟩, fun hne => absurd hf hne⟩
          · rw [if_neg hf] at h ⊢
            refine ⟨fun hpdf => absurd hpdf hf, fun _ => ?_⟩
            have hlive : ctx.expired 2 = false := by
              cases h2 : execute ctx 2 remote.captureSnapshot with
              | error e =>
                simp only [h2] at h
                obtain ⟨a, ha⟩ := errOf_eq_none h
                exact live_mono (by omega) (execute_ok ha).1
              | ok data => exact (execute_ok h2).1
            rw [execute_live _ hlive]
            cases remote.captureSnapshot with
            | error e => exact Or.inr ⟨e, rfl, rfl⟩
            | ok data => exact Or.inl ⟨data, rfl, rfl, rfl, bytesOf_length data⟩

theorem reader_passthrough_witness :
    (∃ pdf, (Remote.allOk "x" [37, 80, 68, 70]).printToPDF = .ok pdf ∧
      (Snapshot ⟨"ws://10.0.0.5:9222/devtools/browser/b"⟩ ⟨none⟩
        (Remote.allOk "x" [37, 80, 68, 70]) "https://www.google.com/"
        [FormatSnapshotOption "pdf"]).reader = some pdf) ∧
    (Snapshot ⟨"ws://10.0.0.5:9222/devtools/browser/b"⟩ ⟨none⟩
        (Remote.allOk "<html>" [37, 80, 68, 70]) "https://www.google.com/"
        [ScaleFactorSnapshotOption ⟨4607182418800017408⟩]).reader
      = some [60, 104, 116, 109, 108, 62] := by
  refine ⟨((reader_passthrough ⟨"ws://10.0.0.5:9222/devtools/browser/b"⟩ ⟨none⟩
      (Remote.allOk "x" [37, 80, 68, 70]) "https://www.google.com/"
      [FormatSnapshotOption "pdf"]).2.1 (by decide)).1 (by decide), ?_⟩
  rcases ((reader_passthrough ⟨"ws://10.0.0.5:9222/devtools/browser/b"⟩ ⟨none⟩
      (Remote.allOk "<html>" [37, 80, 68, 70]) "https://www.google.com/"
      [ScaleFactorSnapshotOption ⟨4607182418800017408⟩]).2.1 (by decide)).2 (by decide)
    with ⟨data, hdata, hreader, _, _⟩ | ⟨e, he, _⟩
  · have hd : data = "<html>" := by
      simp only [Remote.allOk, Except.ok.injEq] at hdata
      exact hdata.symm
    subst hd
    rw [hreader]
    decide
  · simp [Remote.allOk] at he

theorem expired_of_deadline {ctx : Context} {k j : Nat} (hd : ctx.deadline = some k)
    (hkj : k ≤ j) : ctx.expired j = true := by
  simp [Context.expired, hd, hkj]

/-- Inside the action sequence: when the deadline of the context elapses during a step
that the call executes, in either capture mode, the call returns the deadline-exceeded
error itself and a nil reader. -/
theorem deadline_exceeded_returned (s : chromeRemoteSnapshoter) (ctx : Context)
    (remote : Remote) (url : String) (options : List SnapshotOption) (k : Nat)
    (hd : ctx.deadline = some k)
    (hk : k < (Snapshot s ctx remote url options).trace.length) :
    (Snapshot s ctx remote url options).err = some Err.deadlineExceeded ∧
    (Snapshot s ctx remote url options).reader = none := by
  have hx : ∀ {α : Type} (j : Nat) (r : Except Err α), k ≤ j →
      execute ctx j r = .error .deadlineExceeded :=
    fun j r hkj => execute_expired r (expired_of_deadline hd hkj)
  rw [Snapshot_trace] at hk
  have hk3 : k ≤ 3 := by
    have hlen := (Run_trace ctx remote (runActions url (applyOptions options))).1.length_le
    have h4 : (runActions url (applyOptions options)).length = 4 := rfl
    omega
  rw [Snapshot_err, Snapshot_reader]
  rw [Run_runActions] at hk ⊢
  cases hc : remote.connect with
  | some e => simp [hc] at hk
  | none =>
    simp only [hc] at hk ⊢
    cases h0 : execute ctx 0 (remote.setDeviceMetricsOverride (applyOptions options).Width
        (applyOptions options).Height (applyOptions options).ScaleFactor
        (applyOptions options).Mobile) with
    | error e =>
      simp only [h0, runActions, List.take, List.length_cons, List.length_nil] at hk ⊢
      rw [hx 0 _ (by omega)] at h0
      cases h0
      simp
    | ok u0 =>
      simp only [h0] at hk ⊢
      cases h1 : execute ctx 1 (remote.navigate url) with
      | error e =>
        simp only [h1, runActions, List.take, List.length_cons, List.length_nil] at hk ⊢
        rw [hx 1 _ (by omega)] at h1
        cases h1
        simp
      | ok u1 =>
        simp only [h1] at hk ⊢
        have h3 : execute ctx 3 remote.close = .error .deadlineExceeded := hx 3 _ hk3
        by_cases hf : (applyOptions options).Format = "pdf"
        · rw [if_pos hf] at hk ⊢
          cases h2 : execute ctx 2 remote.printToPDF with
          | error e =>
            simp only [h2, runActions, List.take, List.length_cons, List.length_nil] at hk ⊢
            rw [hx 2 _ (by omega)] at h2
            cases h2
            simp
          | ok pdf => simp [h3, errOf]
        · rw [if_neg hf] at hk ⊢
          cases h2 : execute ctx 2 remote.captureSnapshot <;> simp [h3, errOf]

theorem deadline_exceeded_returned_witness :
    (Snapshot ⟨"ws://10.0.0.5:9222/devtools/browser/b"⟩ ⟨some 2⟩ (Remote.allOk "x" [])
        "https://www.google.com/" []).err = some Err.deadlineExceeded ∧
    (Snapshot ⟨"ws://10.0.0.5:9222/devtools/browser/b"⟩ ⟨some 2⟩ (Remote.allOk "x" [])
        "https://www.google.com/" []).reader = none :=
  deadline_exceeded_returned ⟨"ws://10.0.0.5:9222/devtools/browser/b"⟩ ⟨some 2⟩
    (Remote.allOk "x" []) "https://www.google.com/" [] 2 rfl (by decide)

/-- C6 (the code at the failing input): when the deadline elapses while the run still sets
up the session and the page target, the call returns the wrapped error of the set-up,
which is not the deadline-exceeded error itself; no action runs and the reader is nil. -/
theorem setup_deadline_wrapped :
    Snapshot ⟨"ws://10.0.0.5:9222/devtools/browser/b"⟩ ⟨some 0⟩ Remote.setupTimesOut
        "https://www.google.com/" [ScaleFactorSnapshotOption ⟨4607182418800017408⟩] =
      { reader := none,
        err := some (.other "unable to execute *page.EnableParams: context deadline exceeded"),
        trace := [],
        events := [ .newRemoteAllocator "ws://10.0.0.5:9222/devtools/browser/b",
                    .newContext,
                    .cancelContext,
                    .cancelAllocator ] } ∧
    (Snapshot ⟨"ws://10.0.0.5:9222/devtools/browser/b"⟩ ⟨some 0⟩ Remote.setupTimesOut
        "https://www.google.com/" [ScaleFactorSnapshotOption ⟨4607182418800017408⟩]).err
      ≠ some Err.deadlineExceeded := by
  decide

/-- C3 (the code at the failing input): in the default mode a remote failure of the
snapshot command does not stop the sequence; the page close still runs and the call
returns a nil error together with an empty reader. -/
theorem capture_failure_suppressed :
    Snapshot ⟨"ws://10.0.0.5:9222/devtools/browser/b"⟩ ⟨none⟩
        (Remote.captureFails (.other "Page.captureSnapshot failed"))
        "https://www.google.com/" [] =
      { reader := some [],
        err := none,
        trace := [ .setDeviceMetricsOverride 0 0 ⟨0⟩ false,
                   .navigate "https://www.google.com/",
                   .snapshotAction .buf "",
                   .closePageAction ],
        events := [ .newRemoteAllocator "ws://10.0.0.5:9222/devtools/browser/b",
                    .newContext,
                    .action (.setDeviceMetricsOverride 0 0 ⟨0⟩ false),
                    .action (.navigate "https://www.google.com/"),
                    .action (.snapshotAction .buf ""),
                    .action .closePageAction,
                    .cancelContext,
                    .cancelAllocator ] } := by
  decide

/-- C10: the snapshot action returns no error whatever the remote snapshot command
answers, and leaves the buffer unchanged when that command fails; so outside "pdf" mode,
when the other three steps succeed, the call returns a nil error and an empty reader;
the print-to-PDF action returns exactly the error of the remote print command. -/
theorem snapshot_action_swallows_error (s : chromeRemoteSnapshoter) (ctx : Context)
    (remote : Remote) (url : String) (options : List SnapshotOption) (st : RunState)
    (res : BufPtr) (format : String) (params : Option PrintToPDFParams) :
    ((Action.snapshotAction res format).Do ctx remote st).1 = none ∧
    ((∃ e, execute ctx st.trace.length remote.captureSnapshot = .error e) →
      ((Action.snapshotAction res format).Do ctx remote st).2.buf = st.buf) ∧
    ((applyOptions options).Format ≠ "pdf" →
      remote.connect = none →
      execute ctx 0 (remote.setDeviceMetricsOverride (applyOptions options).Width
        (applyOptions options).Height (applyOptions options).ScaleFactor
        (applyOptions options).Mobile) = .ok () →
      execute ctx 1 (remote.navigate url) = .ok () →
      (∃ e, remote.captureSnapshot = .error e) →
      execute ctx 3 remote.close = .ok () →
      (Snapshot s ctx remote url options).err = none ∧
      (Snapshot s ctx remote url options).reader = some []) ∧
    ((Action.printToPDFAction .buf params).Do ctx remote st).1
      = errOf (execute ctx st.trace.length remote.printToPDF) := by
  refine ⟨?_, ?_, ?_, ?_⟩
  · cases res with
    | nil => rfl
    | buf => simp only [Action.Do]; split <;> rfl
  · rintro ⟨e, he⟩
    cases res with
    | nil => rfl
    | buf => simp only [Action.Do, he]
  · rintro hf hc h0 h1 ⟨e, h2⟩ h3
    have hlive : ctx.expired 2 = false := live_mono (by omega) (execute_ok h3).1
    rw [Snapshot_err, Snapshot_reader, Run_runActions]
    simp [hc, h0, h1, if_neg hf, execute_live _ hlive, h2, h3, errOf]
  · simp only [Action.Do]
    split <;> simp_all [errOf]

theorem snapshot_action_swallows_error_witness :
    (Snapshot ⟨"ws://10.0.0.5:9222/devtools/browser/b"⟩ ⟨none⟩
        (Remote.captureFails (.other "Page.captureSnapshot failed"))
        "https://www.google.com/" [FormatSnapshotOption "mhtml"]).err = none ∧
    (Snapshot ⟨"ws://10.0.0.5:9222/devtools/browser/b"⟩ ⟨none⟩
        (Remote.captureFails (.other "Page.captureSnapshot failed"))
        "https://www.google.com/" [FormatSnapshotOption "mhtml"]).reader = some [] :=
  (snapshot_action_swallows_error ⟨"ws://10.0.0.5:9222/devtools/browser/b"⟩ ⟨none⟩
      (Remote.captureFails (.other "Page.captureSnapshot failed"))
      "https://www.google.com/" [FormatSnapshotOption "mhtml"] { buf := [], trace := [] }
      .buf "mhtml" none).2.2.1
    (by decide) rfl rfl rfl ⟨_, rfl⟩ rfl

/-! ## Release of the session and of the page context -/

/-- C8: on every call, whatever it returns, the events are the opening of the session,
the opening of the page context, the executed actions, the release of the page context
and then the release of the session; each release occurs exactly once. -/
theorem release_exactly_once (s : chromeRemoteSnapshoter) (ctx : Context) (remote : Remote)
    (url : String) (options : List SnapshotOption) :
    (Snapshot s ctx remote url options).events
      = [Event.newRemoteAllocator s.url, Event.newContext]
          ++ (Snapshot s ctx remote url options).trace.map Event.action
          ++ [Event.cancelContext, Event.cancelAllocator] ∧
    (Snapshot s ctx remote url options).events.count Event.cancelContext = 1 ∧
    (Snapshot s ctx remote url options).events.count Event.cancelAllocator = 1 ∧
    (Snapshot s ctx remote url options).events.count Event.newContext = 1 ∧
    (Snapshot s ctx remote url options).events.count (Event.newRemoteAllocator s.url) = 1 := by
  have hcount : ∀ (e : Event) (l : List Action), (∀ a, e ≠ Event.action a) →
      (l.map Event.action).count e = 0 := by
    intro e l he
    apply List.count_eq_zero.mpr
    intro hmem
    obtain ⟨a, _, ha⟩ := List.mem_map.mp hmem
    exact he a ha.symm
  refine ⟨Snapshot_events s ctx remote url options, ?_, ?_, ?_, ?_⟩ <;>
    rw [Snapshot_events] <;>
    simp [List.count_append, List.count_cons, hcount]

/-! ## Endpoint discovery -/

/-- C5 (the code at the failing input): for a response object without the field
webSocketDebuggerUrl, and for one whose field is a number, the constructor ends in a
run-time panic of the type assertion; it returns neither an error nor a service. -/
theorem missing_field_panics :
    NewChromeRemoteSnapshoter (Discovery.answering (.obj [])) "127.0.0.1:9222"
      = .panic "interface conversion: interface is not string" ∧
    NewChromeRemoteSnapshoter
        (Discovery.answering (.obj [("webSocketDebuggerUrl", .number "1")])) "127.0.0.1:9222"
      = .panic "interface conversion: interface is not string" := by
  decide

theorem replaceFirst_ws (new rest : List Char) :
    replaceFirst "localhost".data new ("ws://localhost".data ++ rest)
      = "ws://".data ++ new ++ rest := by
  have h1 : "localhost".data = ['l', 'o', 'c', 'a', 'l', 'h', 'o', 's', 't'] := rfl
  have h2 : "ws://localhost".data
      = ['w', 's', ':', '/', '/', 'l', 'o', 'c', 'a', 'l', 'h', 'o', 's', 't'] := rfl
  have h3 : "ws://".data = ['w', 's', ':', '/', '/'] := rfl
  rw [h1, h2, h3]
  simp [replaceFirst, List.isPrefixOf]

theorem replaceFirst_wss (new rest : List Char) :
    replaceFirst "localhost".data new ("wss://localhost".data ++ rest)
      = "wss://".data ++ new ++ rest := by
  have h1 : "localhost".data = ['l', 'o', 'c', 'a', 'l', 'h', 'o', 's', 't'] := rfl
  have h2 : "wss://localhost".data
      = ['w', 's', 's', ':', '/', '/', 'l', 'o', 'c', 'a', 'l', 'h', 'o', 's', 't'] := rfl
  have h3 : "wss://".data = ['w', 's', 's', ':', '/', '/'] := rfl
  rw [h1, h2, h3]
  simp [replaceFirst, List.isPrefixOf]

theorem hostSplit (host rest : List Char) (hhost : host.all isHostChar = true)
    (hrest : followsHost rest = true) :
    (host ++ rest).takeWhile isHostChar = host ∧ (host ++ rest).dropWhile isHostChar = rest := by
  have hall : ∀ a ∈ host, isHostChar a = true := by simpa [List.all_eq_true] using hhost
  rw [List.takeWhile_append_of_pos hall, List.dropWhile_append_of_pos hall]
  cases rest with
  | nil => simp
  | cons c cs =>
    have hc : isHostChar c = false := by simpa [followsHost] using hrest
    simp [List.takeWhile_cons, List.dropWhile_cons, hc]

theorem urlParts_ws (host rest : List Char) (hhost : host.all isHostChar = true)
    (hrest : followsHost rest = true) :
    urlParts ("ws://".data ++ host ++ rest) = some ("ws".data, host, rest) := by
  have h3 : "ws://".data = ['w', 's', ':', '/', '/'] := rfl
  have h4 : "://".data = [':', '/', '/'] := rfl
  have h5 : "ws".data = ['w', 's'] := rfl
  obtain ⟨ht, hd⟩ := hostSplit host rest hhost hrest
  rw [h3, h5]
  simp [urlParts, urlPartsFrom, h4, List.isPrefixOf, ht, hd]

theorem urlParts_wss (host rest : List Char) (hhost : host.all isHostChar = true)
    (hrest : followsHost rest = true) :
    urlParts ("wss://".data ++ host ++ rest) = some ("wss".data, host, rest) := by
  have h3 : "wss://".data = ['w', 's', 's', ':', '/', '/'] := rfl
  have h4 : "://".data = [':', '/', '/'] := rfl
  have h5 : "wss".data = ['w', 's', 's'] := rfl
  obtain ⟨ht, hd⟩ := hostSplit host rest hhost hrest
  rw [h3, h5]
  simp [urlParts, urlPartsFrom, h4, List.isPrefixOf, ht, hd]

/-- C4 (as stated, refuted): a discovered URL whose loopback host is written
127.0.0.1:9222 is stored unchanged, so its host segment is not the address 10.0.0.5:9222. -/
theorem loopback_ip_host_kept :
    NewChromeRemoteSnapshoter
        (Discovery.answering
          (.obj [("webSocketDebuggerUrl", .str "ws://127.0.0.1:9222/devtools/browser/b")]))
        "10.0.0.5:9222"
      = .ok { url := "ws://127.0.0.1:9222/devtools/browser/b" } ∧
    urlParts "ws://127.0.0.1:9222/devtools/browser/b".data
      = some ("ws".data, "127.0.0.1:9222".data, "/devtools/browser/b".data) ∧
    ¬ HostRewritten "10.0.0.5:9222" "ws://127.0.0.1:9222/devtools/browser/b"
        "ws://127.0.0.1:9222/devtools/browser/b" := by
  have hparts : urlParts "ws://127.0.0.1:9222/devtools/browser/b".data
      = some ("ws".data, "127.0.0.1:9222".data, "/devtools/browser/b".data) := by decide
  refine ⟨by decide, hparts, ?_⟩
  rintro ⟨scheme, host, rest, _, h2⟩
  rw [hparts] at h2
  simp only [Option.some.injEq, Prod.mk.injEq] at h2
  exact absurd h2.2.1 (by decide)

/-- C4 (amended): when the discovered URL is ws://localhost or wss://localhost followed by
any rest, the stored endpoint is the same scheme, then the address, then the same rest;
when the address holds no URL delimiter and the rest can follow a host, the endpoint
differs from the discovered URL in its host segment only, which is the address. -/
theorem localhost_host_rewritten (env : Discovery) (addr scheme rest : String)
    (members : List (String × Json))
    (hscheme : scheme = "ws" ∨ scheme = "wss")
    (hreq : env.newRequest ("http://" ++ addr ++ "/json/version") = none)
    (hresp : env.roundTrip ("http://" ++ addr ++ "/json/version") = .ok (.ok (.obj members)))
    (hfield : mapIndex members "webSocketDebuggerUrl"
      = some (.str (scheme ++ "://localhost" ++ rest))) :
    NewChromeRemoteSnapshoter env addr = .ok { url := scheme ++ "://" ++ addr ++ rest } ∧
    (addr.data.all isHostChar = true → followsHost rest.data = true →
      HostRewritten addr (scheme ++ "://localhost" ++ rest)
        (scheme ++ "://" ++ addr ++ rest)) := by
  have hrep : Replace1 (scheme ++ "://localhost" ++ rest) "localhost" addr
      = scheme ++ "://" ++ addr ++ rest := by
    apply String.ext
    rcases hscheme with h | h <;> subst h
    · exact replaceFirst_ws addr.data rest.data
    · exact replaceFirst_wss addr.data rest.data
  refine ⟨?_, ?_⟩
  · simp only [NewChromeRemoteSnapshoter, hreq, hresp, Except.bind, decodeMap, hfield,
      assertString, hrep]
  · intro haddr hrest
    have hlocal : "localhost".data.all isHostChar = true := by decide
    rcases hscheme with h | h <;> subst h
    · exact ⟨"ws".data, "localhost".data, rest.data,
        urlParts_ws "localhost".data rest.data hlocal hrest,
        urlParts_ws addr.data rest.data haddr hrest⟩
    · exact ⟨"wss".data, "localhost".data, rest.data,
        urlParts_wss "localhost".data rest.data hlocal hrest,
        urlParts_wss addr.data rest.data haddr hrest⟩

theorem localhost_host_rewritten_witness :
    NewChromeRemoteSnapshoter
        (Discovery.answering
          (.obj [("webSocketDebuggerUrl", .str "ws://localhost/devtools/browser/b")]))
        "10.0.0.5:9222"
      = .ok { url := "ws" ++ "://" ++ "10.0.0.5:9222" ++ "/devtools/browser/b" } ∧
    HostRewritten "10.0.0.5:9222" ("ws" ++ "://localhost" ++ "/devtools/browser/b")
      ("ws" ++ "://" ++ "10.0.0.5:9222" ++ "/devtools/browser/b") :=
  have h := localhost_host_rewritten
    (Discovery.answering
      (.obj [("webSocketDebuggerUrl", .str "ws://localhost/devtools/browser/b")]))
    "10.0.0.5:9222" "ws" "/devtools/browser/b"
    [("webSocketDebuggerUrl", .str "ws://localhost/devtools/browser/b")]
    (Or.inl rfl) rfl rfl (by rfl)
  ⟨h.1, h.2 (by decide) (by decide)⟩

end WabarcSnapshot
